import Mathlib

/-
  Shallow embedding of src/app.py (NBA Prop Master v31, Streamlit dashboard).

  Conventions:
  * Python floats are modelled as exact rationals (ℚ); all the constants in
    the source (114.5, 0.95, 1.05, 1.15, 0.12, ...) are exactly representable.
  * Every external call wrapped in a Python try/except is modelled by an
    `Except Unit α` parameter: `Except.ok` carries the parsed table the code
    would have obtained, `Except.error` stands for any raised exception.
  * Python string operations (substring `in`, `replace`, `strip`, `lower`,
    `split`) are modelled by structurally recursive functions on `List Char`
    so that all definitions evaluate by kernel reduction.
  * pandas dicts are modelled as association lists with insertion-order
    overwrite semantics (`dictInsert`), lookups by `List.find?`.
-/

namespace NBAPropMaster

/-! ### String utilities (Python `in`, `replace`, `strip`, `lower`, `split`) -/

/-- Boolean list-prefix test on characters. -/
def listPrefixOf : List Char → List Char → Bool
  | [], _ => true
  | _ :: _, [] => false
  | a :: as, b :: bs => a == b && listPrefixOf as bs

/-- Boolean sublist (contiguous substring) test: does `needle` occur inside `hay`?
Models Python `needle in hay` for strings. -/
def subList (needle : List Char) : List Char → Bool
  | [] => listPrefixOf needle []
  | c :: t => listPrefixOf needle (c :: t) || subList needle t

/-- Python `needle in hay` on strings. -/
def strContains (hay needle : String) : Bool := subList needle.data hay.data

/-- Python `str.lower()`. -/
def lowerStr (s : String) : String := String.mk (s.data.map Char.toLower)

/-- Drop leading spaces. -/
def dropSpaces (l : List Char) : List Char := l.dropWhile (fun c => c == ' ')

/-- Python `str.strip()` (space-trimming model). -/
def stripStr (s : String) : String :=
  String.mk ((dropSpaces (dropSpaces s.data).reverse).reverse)

/-- Fuel-indexed helper for `removeAll`; the fuel is the length of the list,
which bounds the number of recursive steps. -/
def removeAllAux (pat : List Char) : Nat → List Char → List Char
  | 0, l => l
  | _ + 1, [] => []
  | fuel + 1, c :: rest =>
      if !pat.isEmpty && listPrefixOf pat (c :: rest) then
        removeAllAux pat fuel (List.drop (pat.length - 1) rest)
      else c :: removeAllAux pat fuel rest

/-- Python `str.replace(pat, "")`: delete every occurrence of `pat`. -/
def removeAll (pat : List Char) (l : List Char) : List Char :=
  removeAllAux pat l.length l

/-- Python `s.replace(pat, "")` on strings. -/
def strRemove (s pat : String) : String := String.mk (removeAll pat.data s.data)

/-- Everything before the first occurrence of `pat`; models
Python `s.split(pat)[0]`. -/
def takeUntil (pat : List Char) : List Char → List Char
  | [] => []
  | c :: rest =>
      if !pat.isEmpty && listPrefixOf pat (c :: rest) then []
      else c :: takeUntil pat rest

/-- Python `s.split(pat)[0]` on strings. -/
def firstField (s pat : String) : String := String.mk (takeUntil pat.data s.data)

/-- Python dict assignment `m[k] = v`: overwrite in place if the key exists,
otherwise append (insertion order preserved). -/
def dictInsert {α : Type} (m : List (String × α)) (k : String) (v : α) :
    List (String × α) :=
  match m with
  | [] => [(k, v)]
  | kv :: rest => if kv.1 == k then (k, v) :: rest else kv :: dictInsert rest k v

/-- Python dict membership / lookup on the association-list model. -/
def dictFind {α : Type} (m : List (String × α)) (k : String) : Option α :=
  (m.find? (fun kv => kv.1 == k)).map (fun kv => kv.2)

/-! ### Source fetchers (app.py lines 45-132) -/

/-- One row of the Basketball-Reference per-game table (the columns
`build_player_index` reads). -/
structure BBRefRow where
  player : String
  pos : String
deriving DecidableEq

/-- Position parsing inside `build_player_index` (app.py lines 60-64). -/
def parsePos (pos_raw : String) : List String :=
  let l1 := if strContains pos_raw "PG" || strContains pos_raw "SG" then ["G"] else []
  let l2 := if strContains pos_raw "SF" || strContains pos_raw "PF" then l1 ++ ["F"] else l1
  if strContains pos_raw "C" then l2 ++ ["C"] else l2

/-- Function `build_player_index` (app.py lines 46-69): parses the scraped table into a
name-keyed position map; any exception yields the empty dict. -/
def build_player_index (page : Except Unit (List BBRefRow)) :
    List (String × List String) :=
  match page with
  | Except.error _ => []
  | Except.ok rows =>
      ((rows.filter (fun r => r.player != "Player")).foldl
        (fun m r => dictInsert m (lowerStr (stripStr (strRemove r.player "*"))) (parsePos r.pos))
        [])

/-- Function `fetch_specific_team_defense` (app.py lines 72-81): the opponent defensive
rating, or 114.5 on any exception. -/
def fetch_specific_team_defense (resp : Except Unit ℚ) : ℚ :=
  match resp with
  | Except.ok v => v
  | Except.error _ => 114.5

/-- One row of the CBS injuries table (columns `Player`, `Status`). -/
structure InjuryRow where
  player : String
  status : String
deriving DecidableEq

/-- Function `fetch_live_injury_report` (app.py lines 83-94): lowercased name → status
dict; any exception yields the empty dict. -/
def fetch_live_injury_report (page : Except Unit (List InjuryRow)) :
    List (String × String) :=
  match page with
  | Except.error _ => []
  | Except.ok rows =>
      rows.foldl
        (fun m r => dictInsert m (lowerStr (stripStr (firstField r.player " • "))) (lowerStr r.status))
        []

/-- Function `check_player_status` (app.py lines 96-99): first report key containing the
lowercased name as a substring wins; otherwise "Active". -/
def check_player_status (report : List (String × String)) (name : String) : String :=
  match report with
  | [] => "Active"
  | kv :: rest =>
      if strContains kv.1 (lowerStr name) then kv.2 else check_player_status rest name

/-! ### Schedule backup (app.py lines 102-132) -/

/-- One row of the matched ESPN schedule table (columns `RESULT`, `OPPONENT`). -/
structure ScheduleRow where
  result : String
  opponent : String
deriving DecidableEq

/-- The game dict built by `fetch_schedule_backup` / `get_next_game`.
Dates are modelled as whole days. -/
structure GameInfo where
  date : Int
  is_home : Bool
  opp_id : Nat
  opp_name : String
  opp_def_rtg : ℚ
deriving DecidableEq

/-- The row loop of `fetch_schedule_backup` (app.py lines 114-130): first row
whose RESULT contains neither W nor L is the next game; opponent id is set
to 0 and the defensive rating to the 114.5 fallback. -/
def firstFutureGame (now : Int) : List ScheduleRow → Option GameInfo
  | [] => none
  | row :: rest =>
      if !(strContains row.result "W") && !(strContains row.result "L") then
        some { date := now + 1
               is_home := strContains row.opponent "vs"
               opp_id := 0
               opp_name := stripStr (strRemove (strRemove row.opponent "vs") "@")
               opp_def_rtg := 114.5 }
      else firstFutureGame now rest

/-- Function `fetch_schedule_backup` (app.py lines 102-132): `slug_known` is whether the
team id is in `TEAM_ID_TO_SLUG`; the scraped page is `Except`-wrapped; any
exception or absent table yields `none`. -/
def fetch_schedule_backup (slug_known : Bool) (now : Int)
    (page : Except Unit (List ScheduleRow)) : Option GameInfo :=
  if !slug_known then none
  else
    match page with
    | Except.error _ => none
    | Except.ok rows => firstFutureGame now rows

/-! ### Identity resolution and feature engineering in `train`
    (app.py lines 145-227) -/

/-- An entry of `nba_api.stats.static.players.get_players()`. -/
structure NbaPlayer where
  id : Nat
  full_name : String
deriving DecidableEq

/-- The id-resolution search in `train` (app.py lines 153 and 157):
`next((p for p in nba_players if p.full_name.lower() == p_key), None)`
with `p_key = player_name.lower()` — case-insensitive exact equality. -/
def resolve_player (player_name : String) (nba_players : List NbaPlayer) :
    Option NbaPlayer :=
  nba_players.find? (fun p => lowerStr p.full_name == lowerStr player_name)

/-- The rest-day clamp used at app.py lines 187 and 371:
`3 if x > 7 or x < 0 else x`. -/
def clampRest (raw : Int) : Int := if raw > 7 ∨ raw < 0 then 3 else raw

/-- One entry of the `days_rest` column in `train` (app.py lines 186-187):
the first row's diff is NaN (`none`) and is filled with 3, every other raw
gap goes through the clamp. -/
def days_rest_entry (gap : Option Int) : Int :=
  match gap with
  | none => 3
  | some g => clampRest g

/-- The MIN column handling in `train` (app.py lines 189-191): when the
game-log has no MIN column, every entry is the 32.0 fallback. -/
def min_column (col : Option (List ℚ)) (n : Nat) : List ℚ :=
  match col with
  | some vs => vs
  | none => List.replicate n 32.0

/-- Column `prev_game_min` fill (app.py line 192): a missing previous game
(`shift(1)` NaN) is filled with 32. -/
def prev_game_min (prev : Option ℚ) : ℚ :=
  match prev with
  | some v => v
  | none => 32

/-- Modelled from the spec: no pace fetcher exists in src/app.py (only its
defensive-rating and minutes fallbacks are in the source); spec sections 3
and 8 state that pace defaults to the league-average constant 100.0 whenever
a lookup fails. -/
def fetch_pace (resp : Except Unit ℚ) : ℚ :=
  match resp with
  | Except.ok v => v
  | Except.error _ => 100.0

/-! ### Context heuristics (app.py lines 258-322) -/

/-- One row of `LeagueDashPlayerStats` as used by `check_teammates`
(columns `PLAYER_NAME`, `PTS`). -/
structure TeamStatRow where
  player_name : String
  pts : ℚ
deriving DecidableEq

/-- Descending insertion for `sort_values('PTS', ascending=False)`. -/
def insertByPtsDesc (r : TeamStatRow) : List TeamStatRow → List TeamStatRow
  | [] => [r]
  | x :: xs => if r.pts ≥ x.pts then r :: x :: xs else x :: insertByPtsDesc r xs

/-- Sorting `sort_values('PTS', ascending=False)` (app.py line 262). -/
def sortByPtsDesc : List TeamStatRow → List TeamStatRow
  | [] => []
  | x :: xs => insertByPtsDesc x (sortByPtsDesc xs)

/-- The teammate-collection loop of `check_teammates` (app.py lines 263-267):
append every non-self name, stop as soon as 3 are collected. -/
def collect_teammates (my_player_name : String) :
    List String → List TeamStatRow → List String
  | acc, [] => acc
  | acc, r :: rest =>
      let acc2 :=
        if lowerStr r.player_name == lowerStr my_player_name then acc
        else acc ++ [r.player_name]
      if acc2.length ≥ 3 then acc2
      else collect_teammates my_player_name acc2 rest

/-- Is this teammate's injury status flagged (app.py line 270)? -/
def injuredStatus (s : String) : Bool :=
  strContains s "out" || strContains s "injured"

/-- The status loop of `check_teammates` (app.py lines 268-271): first
teammate whose status contains "out" or "injured". -/
def firstInjuredTeammate (injury_report : List (String × String)) :
    List String → Option (String × String)
  | [] => none
  | tm :: rest =>
      let status := check_player_status injury_report tm
      if injuredStatus status then some (tm, status)
      else firstInjuredTeammate injury_report rest

/-- Function `check_teammates` (app.py lines 258-273); any exception yields
`(False, None, None)`. -/
def check_teammates (roster : Except Unit (List TeamStatRow))
    (my_player_name : String) (injury_report : List (String × String)) :
    Bool × Option String × Option String :=
  match roster with
  | Except.error _ => (false, none, none)
  | Except.ok df =>
      let teammates := collect_teammates my_player_name [] (sortByPtsDesc df)
      match firstInjuredTeammate injury_report teammates with
      | some ts => (true, some ts.1, some ts.2)
      | none => (false, none, none)

/-- One row of the advanced `LeagueDashPlayerStats` as used by
`check_dynamic_defender` (columns `PLAYER_NAME`, `MIN`, `DEF_RATING`). -/
structure DefRow where
  player_name : String
  mins : ℚ
  def_rating : ℚ
deriving DecidableEq

/-- Ascending insertion for `sort_values('DEF_RATING')`. -/
def insertByDefAsc (r : DefRow) : List DefRow → List DefRow
  | [] => [r]
  | x :: xs => if r.def_rating ≤ x.def_rating then r :: x :: xs else x :: insertByDefAsc r xs

/-- Sorting `sort_values('DEF_RATING')` ascending (app.py line 286). -/
def sortByDefAsc : List DefRow → List DefRow
  | [] => []
  | x :: xs => insertByDefAsc x (sortByDefAsc xs)

/-- The threat loop of `check_dynamic_defender` (app.py lines 288-321):
skip defenders who are out, look up their positions (default `['F']`),
intersect with the subject's positions, and weight the penalty. -/
def scanThreats (player_index : List (String × List String))
    (my_positions : List String) (injury_report : List (String × String)) :
    List DefRow → Bool × Option String × Option String × ℚ
  | [] => (false, none, none, 0.0)
  | row :: rest =>
      let status := check_player_status injury_report row.player_name
      if strContains status "out" then
        scanThreats player_index my_positions injury_report rest
      else
        let def_pos := (dictFind player_index (lowerStr row.player_name)).getD ["F"]
        let common := my_positions.filter (fun p => def_pos.contains p)
        if !common.isEmpty then
          let base_pen : ℚ :=
            if row.def_rating < 106.0 then 0.08
            else if row.def_rating < 110.0 then 0.05
            else 0.03
          if common.length < my_positions.length then
            (true, some row.player_name, some "SWITCH", base_pen * 0.7)
          else
            (true, some row.player_name, some "PRIMARY", base_pen)
        else scanThreats player_index my_positions injury_report rest

/-- Function `check_dynamic_defender` (app.py lines 275-322): opponent id 0 short-
circuits to no-defender; otherwise the roster is filtered to rotation
defenders (`MIN > 20`, `DEF_RATING < 112`) sorted by rating; any exception
yields `(False, None, None, 0.0)`. -/
def check_dynamic_defender (opp_team_id : Nat)
    (player_index : List (String × List String)) (my_positions : List String)
    (injury_report : List (String × String))
    (roster : Except Unit (List DefRow)) :
    Bool × Option String × Option String × ℚ :=
  if opp_team_id = 0 then (false, none, none, 0.0)
  else
    match roster with
    | Except.error _ => (false, none, none, 0.0)
    | Except.ok df =>
        let threats :=
          sortByDefAsc (df.filter (fun r => decide (r.mins > 20.0 ∧ r.def_rating < 112.0)))
        scanThreats player_index my_positions injury_report threats

/-! ### Prediction block (app.py lines 401-416) -/

/-- Modifier `tm_mod` (app.py line 401): +15% boost when the teammate-out toggle is on. -/
def tm_mod (tm_val : Bool) : ℚ := if tm_val then 1.15 else 1.0

/-- Modifier `def_mod` (app.py line 402): `1.0 - penalty_amt` when the defender toggle
is on. -/
def def_mod (def_val : Bool) (penalty_amt : ℚ) : ℚ :=
  if def_val then 1.0 - penalty_amt else 1.0

/-- All the inputs of the per-statistic prediction at app.py lines 407-416.
`model_base` stands for `predictor.models[stat].predict(inputs)[0]`, the
output of the fitted regression model, which the code multiplies but never
inspects. -/
structure PredCtx where
  safe_mode : Bool
  avg : ℚ
  model_base : ℚ
  days_rest : Int
  opp_rating : ℚ
  tm_val : Bool
  def_val : Bool
  penalty_amt : ℚ
deriving DecidableEq

/-- The per-statistic prediction (app.py lines 407-416). Safe mode: season
average times the toggled modifiers, then the conditional fatigue and
opponent-rating multipliers. Trained mode: model output times the toggled
modifiers only. -/
def predictStat (c : PredCtx) : ℚ :=
  if c.safe_mode then
    let p0 := c.avg * tm_mod c.tm_val * def_mod c.def_val c.penalty_amt
    let p1 := if c.days_rest = 0 then p0 * 0.95 else p0
    let p2 := if c.opp_rating < 110 then p1 * 0.95 else p1
    if c.opp_rating > 118 then p2 * 1.05 else p2
  else
    c.model_base * tm_mod c.tm_val * def_mod c.def_val c.penalty_amt

/-- The same computation with the back-to-back line `if days_rest == 0:
pred *= 0.95` deleted; used to express "the prediction is multiplied by
0.95" as an equation. -/
def predictStatNoFatigue (c : PredCtx) : ℚ :=
  if c.safe_mode then
    let p0 := c.avg * tm_mod c.tm_val * def_mod c.def_val c.penalty_amt
    let p2 := if c.opp_rating < 110 then p0 * 0.95 else p0
    if c.opp_rating > 118 then p2 * 1.05 else p2
  else
    c.model_base * tm_mod c.tm_val * def_mod c.def_val c.penalty_amt

/-! ### Star rating (app.py lines 422-432) -/

/-- The four display tiers of the recommendation block. -/
inductive Stars
  | five
  | three
  | one
  | warn
deriving DecidableEq

/-- The star-rating chain (app.py lines 423-432): `diff = pred - line`,
`abs_diff = abs(diff)`, then `abs_diff > line*0.12` → five stars, elif
`> line*0.08` → three, elif `> line*0.04` → one, else the warning tier. -/
def starsRating (pred line : ℚ) : Stars :=
  if |pred - line| > line * 0.12 then Stars.five
  else if |pred - line| > line * 0.08 then Stars.three
  else if |pred - line| > line * 0.04 then Stars.one
  else Stars.warn

/-! ### Analysis failure surface (app.py lines 145-160, 211-227, 332-341,
    362-368) -/

/-- The five outcomes of `NBAPredictorLogic.train`:
`(None, None)` when the NBA API import failed, `(None, "Player not found.")`,
`(None, "API Blocked.")`, `(state, "Success")`, `(state, "Safe Mode")`. -/
inductive TrainOutcome
  | offline
  | notFound
  | blocked
  | success
  | safeModeOk
deriving DecidableEq

/-- Control flow of `train` (app.py lines 145-227) over the outcomes of its
external calls: `in_index` = name is a key of the player index, `in_nba` =
the exact-name search over `players.get_players()` succeeds, `logs_ok` =
at least one season game-log fetch succeeds, `career_ok` = the safe-mode
career fetch succeeds. -/
def train_outcome (api_offline in_index in_nba logs_ok career_ok : Bool) :
    TrainOutcome :=
  if api_offline then TrainOutcome.offline
  else if !in_index && !in_nba then TrainOutcome.notFound
  else if logs_ok then TrainOutcome.success
  else if career_ok then TrainOutcome.safeModeOk
  else TrainOutcome.blocked

/-- The user-facing failure of one analysis request (app.py lines 332-341 and
362-368). `some m` means a terminal warning/error is displayed with message
`m`; the inner `none` is `st.error(msg)` with `msg = None` (the offline
path); `none` means the analysis proceeds to the recommendations. -/
def analyze_failure (name_empty api_offline in_index in_nba logs_ok career_ok
    game_found : Bool) : Option (Option String) :=
  if name_empty then some (some "Enter name.")
  else
    match train_outcome api_offline in_index in_nba logs_ok career_ok with
    | TrainOutcome.offline => some none
    | TrainOutcome.notFound => some (some "Player not found.")
    | TrainOutcome.blocked => some (some "API Blocked.")
    | _ => if !game_found then some (some "No upcoming games found.") else none

/-! ### Helper lemmas -/

/-- Lemma: `find?` succeeds exactly when `any` holds. -/
lemma find?_isSome_eq_any {α : Type} (p : α → Bool) (l : List α) :
    (l.find? p).isSome = l.any p := by
  induction l with
  | nil => rfl
  | cons x xs ih =>
      cases hpx : p x <;> simp [List.find?_cons, List.any_cons, hpx, ih]

/-- The status loop succeeds exactly when some collected teammate has a
flagged status. -/
lemma firstInjuredTeammate_isSome (report : List (String × String))
    (l : List String) :
    (firstInjuredTeammate report l).isSome =
      l.any (fun tm => injuredStatus (check_player_status report tm)) := by
  induction l with
  | nil => rfl
  | cons tm rest ih =>
      unfold firstInjuredTeammate
      cases h : injuredStatus (check_player_status report tm) <;>
        simp [h, ih, List.any_cons]

/-- Every game the ESPN backup constructs carries opponent id 0 and the
114.5 fallback rating. -/
lemma firstFutureGame_opp (now : Int) (rows : List ScheduleRow) (g : GameInfo)
    (h : firstFutureGame now rows = some g) :
    g.opp_id = 0 ∧ g.opp_def_rtg = 114.5 := by
  induction rows with
  | nil => simp [firstFutureGame] at h
  | cons row rest ih =>
      unfold firstFutureGame at h
      split at h
      · simp only [Option.some.injEq] at h
        subst h
        exact ⟨rfl, rfl⟩
      · exact ih h

/-- The teammate collector only keeps names that differ (case-insensitively)
from the subject's. -/
lemma collect_teammates_no_self (my : String) (rows : List TeamStatRow)
    (acc : List String)
    (hacc : acc.all (fun tm => !(lowerStr tm == lowerStr my)) = true) :
    (collect_teammates my acc rows).all
      (fun tm => !(lowerStr tm == lowerStr my)) = true := by
  induction rows generalizing acc with
  | nil => simpa [collect_teammates] using hacc
  | cons r rest ih =>
      unfold collect_teammates
      by_cases hr : (lowerStr r.player_name == lowerStr my) = true
      · rw [if_pos hr]
        dsimp only
        split
        · exact hacc
        · exact ih _ hacc
      · rw [if_neg hr]
        have hrf : (lowerStr r.player_name == lowerStr my) = false := by
          simpa using hr
        have hacc2 : (acc ++ [r.player_name]).all
            (fun tm => !(lowerStr tm == lowerStr my)) = true := by
          simp [List.all_append, hacc, hrf]
        dsimp only
        split
        · exact hacc2
        · exact ih _ hacc2

/-- The teammate collector stops at three names. -/
lemma collect_teammates_le_three (my : String) (rows : List TeamStatRow)
    (acc : List String) (hacc : acc.length < 3) :
    (collect_teammates my acc rows).length ≤ 3 := by
  induction rows generalizing acc with
  | nil => simpa [collect_teammates] using Nat.le_of_lt hacc
  | cons r rest ih =>
      unfold collect_teammates
      by_cases hr : (lowerStr r.player_name == lowerStr my) = true
      · rw [if_pos hr]
        dsimp only
        split
        · omega
        · exact ih _ hacc
      · rw [if_neg hr]
        have hlen2 : (acc ++ [r.player_name]).length = acc.length + 1 := by simp
        dsimp only
        split
        · rename_i hge
          omega
        · rename_i hge
          have : (acc ++ [r.player_name]).length < 3 := by omega
          exact ih _ this

/-! ### Claim theorems -/

/-- Claim C1: for every statistic, with a user line L and edge
E = prediction - L, the displayed rating is the 5-star tier iff
|E| > 0.12·L, the 3-star tier iff |E| > 0.08·L and not 5-star, the 1-star
tier iff |E| > 0.04·L and not higher, and the warning tier otherwise;
every boundary comparison is strict greater-than. -/
theorem claim_C1_confidence_tiers (pred line : ℚ) :
    (starsRating pred line = Stars.five ↔ line * 0.12 < |pred - line|) ∧
    (starsRating pred line = Stars.three ↔
      line * 0.08 < |pred - line| ∧ ¬ line * 0.12 < |pred - line|) ∧
    (starsRating pred line = Stars.one ↔
      line * 0.04 < |pred - line| ∧ ¬ line * 0.08 < |pred - line| ∧
        ¬ line * 0.12 < |pred - line|) ∧
    (starsRating pred line = Stars.warn ↔ ¬ line * 0.04 < |pred - line|) := by
  have habs : (0 : ℚ) ≤ |pred - line| := abs_nonneg _
  have h128 : line * 0.12 < |pred - line| → line * 0.08 < |pred - line| := by
    intro h
    rcases le_or_lt 0 line with hl | hl <;> linarith
  have h84 : line * 0.08 < |pred - line| → line * 0.04 < |pred - line| := by
    intro h
    rcases le_or_lt 0 line with hl | hl <;> linarith
  unfold starsRating
  split_ifs with h1 h2 h3
  · exact ⟨by simp [h1], by simp [h1], by simp [h1], by simp [h84 (h128 h1)]⟩
  · exact ⟨by simp [h1], by simp [h1, h2], by simp [h2], by simp [h84 h2]⟩
  · exact ⟨by simp [h1], by simp [h2], by simp [h1, h2, h3], by simp [h3]⟩
  · exact ⟨by simp [h1], by simp [h2], by simp [h3], by simp [h3]⟩

/-- Claim C2: every clamped rest-day value is in [0, 7]; a negative or
greater-than-7 raw gap resolves to exactly 3, and otherwise the raw gap is
returned unchanged (including the NaN-filled first row of the training
frame). -/
theorem claim_C2_rest_day_clamp (raw : Int) (gap : Option Int) :
    (0 ≤ clampRest raw ∧ clampRest raw ≤ 7) ∧
    ((raw < 0 ∨ 7 < raw) → clampRest raw = 3) ∧
    (0 ≤ raw → raw ≤ 7 → clampRest raw = raw) ∧
    (0 ≤ days_rest_entry gap ∧ days_rest_entry gap ≤ 7) := by
  rcases gap with _ | g <;>
    simp only [days_rest_entry, clampRest] <;> split_ifs <;> omega

/-- Witness for C2 at concrete gaps: 9 clamps to 3, 2 passes through. -/
theorem claim_C2_rest_day_clamp_witness :
    clampRest 9 = 3 ∧ clampRest 2 = 2 :=
  ⟨(claim_C2_rest_day_clamp 9 none).2.1 (Or.inr (by decide)),
   (claim_C2_rest_day_clamp 2 none).2.2.1 (by decide) (by decide)⟩

/-- Claim C3: the fallback constants are exactly 114.5 for the opponent
defensive rating, 100.0 for pace (modelled from the spec; no pace code is in
src/app.py), and 32.0 for minutes played (absent MIN column, missing
previous-game minutes, and the safe-mode last-minutes value). -/
theorem claim_C3_fallback_constants :
    fetch_specific_team_defense (Except.error ()) = 114.5 ∧
    fetch_pace (Except.error ()) = 100.0 ∧
    (∀ n : Nat, min_column none n = List.replicate n 32.0) ∧
    prev_game_min none = 32 :=
  ⟨rfl, rfl, fun _ => rfl, rfl⟩

/-- Counterexample to claim C4 as stated: in trained (non-safe) mode with
zero days of rest, the prediction is NOT the 0.95-scaled no-fatigue value —
the 0.95 multiplier only exists on the safe-mode branch. -/
theorem claim_C4_counterexample :
    (PredCtx.mk false 0 20 0 114.5 false false 0).days_rest = 0 ∧
    predictStat (PredCtx.mk false 0 20 0 114.5 false false 0) ≠
      0.95 * predictStatNoFatigue (PredCtx.mk false 0 20 0 114.5 false false 0) := by
  refine ⟨rfl, ?_⟩
  norm_num [predictStat, predictStatNoFatigue, tm_mod, def_mod]

/-- Claim C4 (amended): in safe mode, whenever days of rest is zero the
prediction equals exactly 0.95 times the value computed without the fatigue
step, whatever the other contextual factors; in trained mode no explicit
fatigue multiplier is applied at all. -/
theorem claim_C4_fatigue_multiplier (c : PredCtx) :
    (c.safe_mode = true → c.days_rest = 0 →
      predictStat c = 0.95 * predictStatNoFatigue c) ∧
    (c.safe_mode = false → predictStat c = predictStatNoFatigue c) := by
  obtain ⟨sm, avg, mb, dr, orat, tv, dv, pa⟩ := c
  constructor
  · intro hs hd
    simp only at hs hd
    subst hs hd
    unfold predictStat predictStatNoFatigue
    simp only [if_pos rfl]
    split_ifs <;> ring
  · intro hs
    simp only at hs
    subst hs
    unfold predictStat predictStatNoFatigue
    simp

/-- Witness for C4 (amended) at concrete contexts: a safe-mode back-to-back
and a trained-mode back-to-back. -/
theorem claim_C4_fatigue_multiplier_witness :
    predictStat (PredCtx.mk true 10 0 0 114.5 false false 0) =
      0.95 * predictStatNoFatigue (PredCtx.mk true 10 0 0 114.5 false false 0) ∧
    predictStat (PredCtx.mk false 0 20 0 114.5 false false 0) =
      predictStatNoFatigue (PredCtx.mk false 0 20 0 114.5 false false 0) :=
  ⟨(claim_C4_fatigue_multiplier _).1 rfl rfl,
   (claim_C4_fatigue_multiplier _).2 rfl⟩

/-- Counterexample to claim C5 as stated: the safe-mode opponent-rating boost
in the code is +5% (rating above 118), so a PTS average of 20 yields 21.0,
never 22.0; no +10% opponent boost exists. -/
theorem claim_C5_counterexample :
    predictStat (PredCtx.mk true 20 0 1 120 false false 0) = 21 ∧
    (21 : ℚ) ≠ 22 := by
  refine ⟨?_, by norm_num⟩
  norm_num [predictStat, tm_mod, def_mod]

/-- Claim C5 (amended): in fallback (safe) mode, a player averaging PTS = 20
with the opponent-rating-driven boost active (rating above 118, the +5%
boost the code applies) and no other adjustment yields exactly 21.0. -/
theorem claim_C5_safe_mode_boost (c : PredCtx) :
    c.safe_mode = true → c.avg = 20 → 118 < c.opp_rating → c.days_rest ≠ 0 →
    c.tm_val = false → c.def_val = false → predictStat c = 21 := by
  obtain ⟨sm, avg, mb, dr, orat, tv, dv, pa⟩ := c
  intro hs ha ho hd ht hf
  simp only at hs ha ho hd ht hf
  subst hs ha ht hf
  unfold predictStat
  have hno : ¬ (orat < 110) := by linarith
  simp only [if_pos rfl, if_neg hd, if_neg hno, if_pos ho, tm_mod, def_mod]
  norm_num

/-- Witness for C5 (amended): PTS average 20 against a 120-rated defense in
safe mode gives exactly 21. -/
theorem claim_C5_safe_mode_boost_witness :
    predictStat (PredCtx.mk true 20 0 1 120 false false 0) = 21 :=
  claim_C5_safe_mode_boost _ rfl rfl (by norm_num) (by decide) rfl rfl

/-- Claim C6: player identity resolution matches candidates by
case-insensitive exact full-name equality (any resolved player's lowered
full name equals the lowered query, and resolution succeeds exactly when
such an exact match exists), whereas the injury-status lookup matches by
case-insensitive substring containment of the queried name within a report
key (first containing key wins, otherwise "Active"). -/
theorem claim_C6_name_matching (player_name : String) (ps : List NbaPlayer)
    (report : List (String × String)) :
    ((resolve_player player_name ps).all
      (fun p => lowerStr p.full_name == lowerStr player_name) = true) ∧
    (ps.any (fun p => lowerStr p.full_name == lowerStr player_name) =
      (resolve_player player_name ps).isSome) ∧
    (check_player_status report player_name =
      match report.find? (fun kv => strContains kv.1 (lowerStr player_name)) with
      | some kv => kv.2
      | none => "Active") := by
  refine ⟨?_, ?_, ?_⟩
  · unfold resolve_player
    cases h : ps.find? (fun p => lowerStr p.full_name == lowerStr player_name) with
    | none => rfl
    | some p => simpa [Option.all] using List.find?_some h
  · unfold resolve_player
    exact (find?_isSome_eq_any _ ps).symm
  · induction report with
    | nil => rfl
    | cons kv rest ih =>
        cases hb : strContains kv.1 (lowerStr player_name) <;>
          simp [check_player_status, List.find?_cons, hb, ih]

/-- Claim C7: each source fetcher is total over every outcome of its
external call and degrades to its fallback (empty mapping, the 114.5
constant, or no-game) on any exception instead of raising. -/
theorem claim_C7_fetcher_fallbacks :
    build_player_index (Except.error ()) = [] ∧
    fetch_live_injury_report (Except.error ()) = [] ∧
    fetch_specific_team_defense (Except.error ()) = 114.5 ∧
    (∀ now : Int, ∀ slug_known : Bool,
      fetch_schedule_backup slug_known now (Except.error ()) = none) ∧
    check_teammates (Except.error ()) "" [] = (false, none, none) ∧
    (∀ opp_id : Nat, check_dynamic_defender opp_id [] [] [] (Except.error ()) =
      (false, none, none, 0.0)) := by
  refine ⟨rfl, rfl, rfl, ?_, rfl, ?_⟩
  · intro now slug_known
    cases slug_known <;> rfl
  · intro opp_id
    unfold check_dynamic_defender
    split_ifs <;> rfl

/-- Counterexample to claim C8 as stated: when the NBA API import failed
(offline), the Analyze flow surfaces `st.error(msg)` with `msg = None` — a
fourth user-facing failure outcome that is none of the three terminal
messages. -/
theorem claim_C8_counterexample :
    analyze_failure false true true true true true true = some none ∧
    (none : Option String) ∉
      ([some "Player not found.", some "No upcoming games found.",
        some "API Blocked."] : List (Option String)) := by
  exact ⟨rfl, by decide⟩

/-- Claim C8 (amended): the user-facing failure outcomes of an analysis
request are the three terminal messages "Player not found.",
"No upcoming games found." and "API Blocked." (the external-data failure),
plus an error with a null message when the NBA API import failed and an
"Enter name." warning for an empty input. -/
theorem claim_C8_failure_messages (name_empty api_offline in_index in_nba
    logs_ok career_ok game_found : Bool) :
    (analyze_failure name_empty api_offline in_index in_nba logs_ok career_ok
        game_found).all
      (fun m =>
        ([none, some "Enter name.", some "Player not found.",
          some "API Blocked.", some "No upcoming games found."] :
          List (Option String)).contains m) = true := by
  cases name_empty <;> cases api_offline <;> cases in_index <;> cases in_nba <;>
    cases logs_ok <;> cases career_ok <;> cases game_found <;> rfl

/-- Claim C9: the teammate-out check inspects the top three teammates by
scoring excluding the player themself (at most three names, none equal to
the subject case-insensitively); the flag is set exactly when one of their
statuses contains "out" or "injured"; and the enabled flag multiplies every
statistic's prediction by exactly 1.15. -/
theorem claim_C9_teammate_out (df : List TeamStatRow) (my : String)
    (report : List (String × String)) (c : PredCtx) :
    ((check_teammates (Except.ok df) my report).1 =
      (collect_teammates my [] (sortByPtsDesc df)).any
        (fun tm => injuredStatus (check_player_status report tm))) ∧
    ((collect_teammates my [] (sortByPtsDesc df)).all
      (fun tm => !(lowerStr tm == lowerStr my)) = true) ∧
    ((collect_teammates my [] (sortByPtsDesc df)).length ≤ 3) ∧
    (c.tm_val = true →
      predictStat c = 1.15 * predictStat { c with tm_val := false }) := by
  refine ⟨?_, ?_, ?_, ?_⟩
  · unfold check_teammates
    rw [← firstInjuredTeammate_isSome]
    cases h : firstInjuredTeammate report (collect_teammates my [] (sortByPtsDesc df)) <;>
      simp [h]
  · exact collect_teammates_no_self my (sortByPtsDesc df) [] rfl
  · exact collect_teammates_le_three my (sortByPtsDesc df) [] (by decide)
  · obtain ⟨sm, avg, mb, dr, orat, tv, dv, pa⟩ := c
    intro ht
    simp only at ht
    subst ht
    unfold predictStat
    cases sm
    · simp [tm_mod]
      ring
    · simp [tm_mod]
      split_ifs <;> ring

/-- Witness for C9 at a concrete roster: the second scorer is out, the flag
is set, and the boost scales a trained prediction by 1.15. -/
theorem claim_C9_teammate_out_witness :
    (check_teammates
        (Except.ok [TeamStatRow.mk "Star Guy" 25, TeamStatRow.mk "Me Player" 22,
          TeamStatRow.mk "Role Guy" 12])
        "Me Player" [("star guy", "out (knee)")]).1 =
      (collect_teammates "Me Player" []
        (sortByPtsDesc [TeamStatRow.mk "Star Guy" 25, TeamStatRow.mk "Me Player" 22,
          TeamStatRow.mk "Role Guy" 12])).any
        (fun tm => injuredStatus
          (check_player_status [("star guy", "out (knee)")] tm)) ∧
    predictStat (PredCtx.mk false 0 10 1 114.5 true false 0) =
      1.15 * predictStat (PredCtx.mk false 0 10 1 114.5 false false 0) :=
  ⟨(claim_C9_teammate_out
      [TeamStatRow.mk "Star Guy" 25, TeamStatRow.mk "Me Player" 22,
        TeamStatRow.mk "Role Guy" 12]
      "Me Player" [("star guy", "out (knee)")]
      (PredCtx.mk false 0 10 1 114.5 true false 0)).1,
   (claim_C9_teammate_out [] "Me Player" []
      (PredCtx.mk false 0 10 1 114.5 true false 0)).2.2.2 rfl⟩

/-- Claim C10: a game resolved through the ESPN schedule backup always has
opponent id 0 and opponent defensive rating exactly 114.5; the dynamic
defender check at opponent id 0 returns no-defender with penalty 0.0, so
the defender multiplier is 1.0 whatever the toggle. -/
theorem claim_C10_backup_no_defender (slug_known : Bool) (now : Int)
    (page : Except Unit (List ScheduleRow)) (g : GameInfo)
    (h : fetch_schedule_backup slug_known now page = some g) :
    g.opp_id = 0 ∧ g.opp_def_rtg = 114.5 ∧
    (∀ player_index my_positions injury_report roster,
      check_dynamic_defender g.opp_id player_index my_positions injury_report
        roster = (false, none, none, 0.0)) ∧
    (∀ def_val : Bool, def_mod def_val 0.0 = 1.0) := by
  unfold fetch_schedule_backup at h
  have hg : g.opp_id = 0 ∧ g.opp_def_rtg = 114.5 := by
    cases slug_known with
    | false => simp at h
    | true =>
        cases page with
        | error e => simp at h
        | ok rows => exact firstFutureGame_opp now rows g (by simpa using h)
  refine ⟨hg.1, hg.2, ?_, ?_⟩
  · intro player_index my_positions injury_report roster
    rw [hg.1]
    rfl
  · intro def_val
    cases def_val <;> norm_num [def_mod]

/-- Witness for C10: a concrete two-row ESPN schedule whose first future game
is "@ Miami"; the resulting game context and the defender check at its
opponent id. -/
theorem claim_C10_backup_no_defender_witness :
    (GameInfo.mk 1 false 0 "Miami" 114.5).opp_id = 0 ∧
    (GameInfo.mk 1 false 0 "Miami" 114.5).opp_def_rtg = 114.5 ∧
    check_dynamic_defender (GameInfo.mk 1 false 0 "Miami" 114.5).opp_id
      [] ["G"] [] (Except.error ()) = (false, none, none, 0.0) ∧
    def_mod true 0.0 = 1.0 := by
  have h := claim_C10_backup_no_defender true 0
    (Except.ok [ScheduleRow.mk "W 101-99" "vs Boston",
      ScheduleRow.mk "7:00 PM" "@ Miami"])
    (GameInfo.mk 1 false 0 "Miami" 114.5) rfl
  exact ⟨h.1, h.2.1, h.2.2.1 [] ["G"] [] (Except.error ()), h.2.2.2 true⟩

end NBAPropMaster
